import Mathlib

/-!
Shallow embedding of the CBC curriculum question-generator service
(`models.py`, `commands.py`, `app.py`) together with proofs of the
behavioural properties documented in its specification.

The relational store is modelled as per-entity association tables
(row id paired with the natural key used by the importer), the
importer and the two generation endpoints as pure functions over that
store, and the external collaborators (CSV reader, bcrypt hash, JSON
decoder, AI service) as explicit parameters or oracles.
-/

namespace CBC

/-! ## Python string primitives used by the code
`str.strip`, `str.lower`, `str.removeprefix`, `str.removesuffix`. -/

/-- Characters stripped by Python `str.strip()` (ASCII whitespace). -/
def pySpace (c : Char) : Bool :=
  c = ' ' || c = '\t' || c = '\n' || c = '\r' || c = '\x0b' || c = '\x0c'

/-- Python `str.strip()` on a character list. -/
def pyTrim (l : List Char) : List Char :=
  ((l.dropWhile pySpace).reverse.dropWhile pySpace).reverse

/-- Python `str.strip()` on a string. -/
def stripS (s : String) : String := String.mk (pyTrim s.data)

/-- Python `str.lower()` (ASCII case fold, as used on emails and kinds). -/
def lowerS (s : String) : String := String.mk (s.data.map Char.toLower)

/-- Python `str.removeprefix(p)` on character lists. -/
def removePrefixL (p s : List Char) : List Char :=
  if p.isPrefixOf s then s.drop p.length else s

/-- Python `str.removesuffix(p)` on character lists. -/
def removeSuffixL (p s : List Char) : List Char :=
  if p.isSuffixOf s then s.take (s.length - p.length) else s

/-! ## Generic relational table with find-or-create

Each SQLAlchemy model of `models.py` is modelled as a table of rows
`(id, key)` where `key` is the natural key the importer queries by
(`filter_by(**kwargs)`), plus the autoincrement counter for the id. -/

/-- One database table: rows `(primary key id, natural key)` plus the
autoincrement id counter. -/
structure Table (κ : Type) where
  rows : List (Nat × κ)
  nextId : Nat
deriving DecidableEq

/-- Result of `get_or_create`: the row, the `created` flag, the table
after the call. -/
structure GocOut (κ : Type) where
  row : Nat × κ
  created : Bool
  table : Table κ
deriving DecidableEq

/-- Model of `commands.get_or_create` in the race-free (sequential importer) case:
query by natural key; if found return the instance with `created=False`
and the session unchanged; otherwise insert, commit and return it with
`created=True`. -/
def getOrCreate {κ : Type} [DecidableEq κ] (t : Table κ) (k : κ) : GocOut κ :=
  match t.rows.find? (fun r => decide (r.2 = k)) with
  | some r => ⟨r, false, t⟩
  | none => ⟨(t.nextId, k), true, ⟨t.rows ++ [(t.nextId, k)], t.nextId + 1⟩⟩

/-- Outcome of `get_or_create` under a possible concurrent writer:
either a returned row with its `created` flag, or an exception
propagated to the caller. -/
inductive GocRaceOut (κ : Type) where
  | ok (row : Nat × κ) (created : Bool) (table : Table κ)
  | raised (table : Table κ)
deriving DecidableEq

/-- Model of `commands.get_or_create` with the environment made explicit:
`race = some rid` means a concurrent writer commits the row `(rid, k)`
for the same natural key between our initial query and our commit, so
the commit raises `IntegrityError`; the handler rolls back, re-queries
the key and returns the existing row with `created=False`. -/
def getOrCreateRace {κ : Type} [DecidableEq κ] (t : Table κ) (k : κ)
    (race : Option Nat) : GocRaceOut κ :=
  match t.rows.find? (fun r => decide (r.2 = k)) with
  | some r => .ok r false t
  | none =>
    match race with
    | none => .ok (t.nextId, k) true ⟨t.rows ++ [(t.nextId, k)], t.nextId + 1⟩
    | some rid =>
      let t1 : Table κ := ⟨t.rows ++ [(rid, k)], t.nextId + 1⟩
      match t1.rows.find? (fun r => decide (r.2 = k)) with
      | some r => .ok r false t1
      | none => .raised t1

/-- Number of rows of a table holding a given natural key. -/
def keyCount {κ : Type} [DecidableEq κ] (t : Table κ) (k : κ) : Nat :=
  (t.rows.filter (fun r => decide (r.2 = k))).length

/-- Lookup `db.session.get(Model, id)`: look a row up by primary key. -/
def findRowById {κ : Type} (t : Table κ) (i : Nat) : Option (Nat × κ) :=
  t.rows.find? (fun r => decide (r.1 = i))

/-! ## The curriculum hierarchy store (`models.py`)

Natural keys match the `filter_by` arguments of `import_curriculum`:
Subject and Grade by `name`; Strand by `(subject_id, grade_id, name)`;
SubStrand by `(strand_id, name)`; LearningOutcome by
`(substrand_id, description)`; KeyInquiryQuestion by
`(substrand_id, question_text)`. -/

/-- Natural key of a `Strand` row: `(subject_id, grade_id, name)`. -/
abbrev StrandKey : Type := Nat × Nat × String

/-- Natural key of a `SubStrand` row: `(strand_id, name)`. -/
abbrev SubStrandKey : Type := Nat × String

/-- Natural key of a leaf row: `(substrand_id, text)`. -/
abbrev LeafKey : Type := Nat × String

/-- The relational store of `models.py`, one table per curriculum
entity kind. -/
structure DB where
  subjects : Table String
  grades : Table String
  strands : Table StrandKey
  substrands : Table SubStrandKey
  los : Table LeafKey
  kiqs : Table LeafKey
deriving DecidableEq

/-! ## The upsert importer (`commands.import_curriculum`) -/

/-- One CSV row as handed to the importer by `csv.DictReader`
(`row.get` with the empty-string default, six required columns). -/
structure CsvRow where
  subject : String
  grade : String
  strand : String
  substrand : String
  itemType : String
  itemText : String
deriving DecidableEq

/-- Per-kind `created_counts` of one import run. -/
structure Counts where
  subject : Nat
  grade : Nat
  strand : Nat
  substrand : Nat
  lo : Nat
  kiq : Nat
deriving DecidableEq

/-- All-zero creation counts. -/
def zeroCounts : Counts := ⟨0, 0, 0, 0, 0, 0⟩

/-- Pointwise sum of creation counts. -/
def addCounts (a b : Counts) : Counts :=
  ⟨a.subject + b.subject, a.grade + b.grade, a.strand + b.strand,
   a.substrand + b.substrand, a.lo + b.lo, a.kiq + b.kiq⟩

/-- Increment flag `if created: count += 1`. -/
def natOfBool (b : Bool) : Nat := if b then 1 else 0

/-- Check `not all([...])` over the six stripped fields: true when some
required field is empty after trimming. -/
def rowHasEmptyField (r : CsvRow) : Bool :=
  stripS r.subject = "" || stripS r.grade = "" || stripS r.strand = "" ||
  stripS r.substrand = "" || stripS r.itemType = "" || stripS r.itemText = ""

/-- The body of the per-row loop of `import_curriculum`: returns the
store after the row, the per-kind created increments of the row, and
whether the row was counted as an error.  Steps in source order:
empty-field check, then find-or-create of Subject, Grade, Strand,
SubStrand, and finally the leaf keyed by `ItemType`; an unrecognized
`ItemType` is a row error but the four levels already committed stay. -/
def importRow (db : DB) (r : CsvRow) : DB × Counts × Bool :=
  if rowHasEmptyField r then (db, zeroCounts, true)
  else
    let g1 := getOrCreate db.subjects (stripS r.subject)
    let g2 := getOrCreate db.grades (stripS r.grade)
    let g3 := getOrCreate db.strands (g1.row.1, g2.row.1, stripS r.strand)
    let g4 := getOrCreate db.substrands (g3.row.1, stripS r.substrand)
    if stripS r.itemType = "LearningOutcome" then
      let g5 := getOrCreate db.los (g4.row.1, stripS r.itemText)
      (⟨g1.table, g2.table, g3.table, g4.table, g5.table, db.kiqs⟩,
       ⟨natOfBool g1.created, natOfBool g2.created, natOfBool g3.created,
        natOfBool g4.created, natOfBool g5.created, 0⟩, false)
    else if stripS r.itemType = "KeyInquiryQuestion" then
      let g5 := getOrCreate db.kiqs (g4.row.1, stripS r.itemText)
      (⟨g1.table, g2.table, g3.table, g4.table, db.los, g5.table⟩,
       ⟨natOfBool g1.created, natOfBool g2.created, natOfBool g3.created,
        natOfBool g4.created, 0, natOfBool g5.created⟩, false)
    else
      (⟨g1.table, g2.table, g3.table, g4.table, db.los, db.kiqs⟩,
       ⟨natOfBool g1.created, natOfBool g2.created, natOfBool g3.created,
        natOfBool g4.created, 0, 0⟩, true)

/-- The row loop of `import_curriculum`.  Each list element carries the
row and an oracle: `true` means an unexpected persistence failure is
raised while processing this row, which the `except Exception` handler
turns into a rollback plus an error count, continuing with the next
row.  Returns `(processed_count, created_counts, error_count, store)`. -/
def runImport (db : DB) : List (CsvRow × Bool) → Nat × Counts × Nat × DB
  | [] => (0, zeroCounts, 0, db)
  | (r, pfail) :: rest =>
    let step := if pfail then (db, zeroCounts, true) else importRow db r
    let tail := runImport step.1 rest
    (tail.1 + 1, addCounts step.2.1 tail.2.1,
     tail.2.2.1 + natOfBool step.2.2, tail.2.2.2)

/-- Overall outcome of one `import-curriculum` run. -/
inductive ImportOutcome where
  | fileNotFound
  | missingColumns
  | completed (processed : Nat) (created : Counts) (errors : Nat)
deriving DecidableEq

/-- Model of `import_curriculum`: a missing file (`FileNotFoundError` from
`open`) aborts before any row; missing required header columns abort
before any row; otherwise every row is processed in order. -/
def importCurriculum (fileExists hasRequiredColumns : Bool)
    (rows : List (CsvRow × Bool)) (db : DB) : ImportOutcome × DB :=
  if fileExists = false then (.fileNotFound, db)
  else if hasRequiredColumns = false then (.missingColumns, db)
  else
    let out := runImport db rows
    (.completed out.1 out.2.1 out.2.2.1, out.2.2.2)

/-! ## Single-outcome generation (`app.generate_questions_endpoint`)

The endpoint is modelled up to the point the prompt is handed to the
AI client; the second half (response handling) is `singleResponse`
below.  The `Bool` component records whether the store was read. -/

/-- Resolved hierarchy context `ctx` of the endpoint. -/
structure Ctx where
  subject : String
  grade : String
  strand : String
  substrand : String
  outcome : String
deriving DecidableEq

/-- Map `q_type_map = \x7b"mcq": "multiple_choice", **\x7bt: t for t in allowed_q\x7d\x7d`
applied with `.get` to the lower-cased requested kind. -/
def qTypeMap (s : String) : Option String :=
  if s = "mcq" then some "multiple_choice"
  else if s = "multiple_choice" then some "multiple_choice"
  else if s = "short_answer" then some "short_answer"
  else if s = "true_false" then some "true_false"
  else if s = "fill_in_the_blank" then some "fill_in_the_blank"
  else none

/-- Context fetch `ss=lo.substrand; s=ss.strand; subj=s.subject; gr=s.grade`
with the `if not all([ss, s, subj, gr])` guard: backreference traversal
from a learning-outcome row up to subject and grade names. -/
def contextFor (db : DB) (lo : Nat × LeafKey) : Option Ctx :=
  match findRowById db.substrands lo.2.1 with
  | none => none
  | some ss =>
    match findRowById db.strands ss.2.1 with
    | none => none
    | some st =>
      match findRowById db.subjects st.2.1 with
      | none => none
      | some subj =>
        match findRowById db.grades st.2.2.1 with
        | none => none
        | some gr => some ⟨subj.2, gr.2, st.2.2.2, ss.2.2, lo.2.2⟩

/-- Literal chunk of the single-outcome prompt before the count. -/
def litGen1 : String := "\n        Generate "

/-- Literal chunk between the count and the mapped kind. -/
def litGen2 : String := " unique question(s) based on the Kenyan CBC curriculum.\n        Question Type: "

/-- Literal chunk between the kind and the subject name. -/
def litGen3 : String := ".\n        Context:\n        - Subject: "

/-- Literal chunk between the subject and the grade name. -/
def litGen4 : String := "\n        - Grade: "

/-- Literal chunk between the grade and the strand name. -/
def litGen5 : String := "\n        - Strand: "

/-- Literal chunk between the strand and the sub-strand name. -/
def litGen6 : String := "\n        - Sub-Strand: "

/-- Literal chunk between the sub-strand and the outcome description. -/
def litGen7 : String := "\n        - Specific Learning Outcome: \""

/-- Literal chunk between the outcome and the second grade mention. -/
def litGen8 : String := "\"\n\n        Instructions:\n        1.  Strictly assess the specified Learning Outcome.\n        2.  Ensure questions are clear, concise, and grade-appropriate for "

/-- Trailing literal chunk of the single-outcome prompt. -/
def litGen9 : String := ".\n        3.  Vary the cognitive skill level of the questions according to Bloom\x27s Taxonomy. Aim for a mix of levels (e.g., Remembering, Understanding, Applying, Analyzing).\n        4.  For each question, indicate the targeted Bloom\x27s Taxonomy level.\n\n        Output Format:\n        Respond ONLY with a valid JSON list of question objects. No extra text before or after the list.\n        Each question object MUST include \x27type\x27, \x27question\x27, \x27taxonomy_level\x27, and \x27answer\x27.\n        For \x27multiple_choice\x27, also include \x27options\x27 (a list of 4 strings).\n\n        Example JSON Output (list of objects):\n        [\n            \x7b\n                \"type\": \"multiple_choice\",\n                \"question\": \"Which of these is a primary color?\",\n                \"options\": [\"Green\", \"Orange\", \"Blue\", \"Purple\"],\n                \"answer\": \"Blue\",\n                \"taxonomy_level\": \"Remembering\"\n            \x7d\n        ]\n        "

/-- The rendered single-outcome prompt f-string of the endpoint. -/
def singlePrompt (numQ : Int) (mappedType : String) (c : Ctx) : List Char :=
  litGen1.data ++ (toString numQ).data ++ litGen2.data ++ mappedType.data ++
  litGen3.data ++ c.subject.data ++ litGen4.data ++ c.grade.data ++
  litGen5.data ++ c.strand.data ++ litGen6.data ++ c.substrand.data ++
  litGen7.data ++ c.outcome.data ++ litGen8.data ++ c.grade.data ++
  litGen9.data

/-- Outcome of the request phase of the single-outcome endpoint. -/
inductive Phase1 where
  | badRequest (msg : String)
  | notFound (msg : String)
  | serverError (msg : String)
  | prompt (p : List Char)
deriving DecidableEq

/-- Request phase of `generate_questions_endpoint`, in source order:
range check on `num_questions`, kind lookup on the lower-cased
`question_type`, then — only after both pass — the store reads for the
learning outcome and its hierarchy context, then the prompt rendering.
The second component records whether any store read happened. -/
def generatePhase1 (db : DB) (loId : Nat) (numQ : Int) (qType : String) :
    Phase1 × Bool :=
  if 0 < numQ ∧ numQ ≤ 20 then
    match qTypeMap (lowerS qType) with
    | none => (.badRequest ("Unsupported question_type."), false)
    | some m =>
      match findRowById db.los loId with
      | none => (.notFound ("Learning Outcome ID " ++ toString loId ++ " not found."), true)
      | some lo =>
        match contextFor db lo with
        | none => (.serverError ("Could not retrieve full context."), true)
        | some c => (.prompt (singlePrompt numQ m c), true)
  else (.badRequest ("num_questions must be between 1 and 20"), false)

/-! ## Full-test generation (`app.generate_full_test_endpoint`) -/

/-- One topic request of the full-test endpoint. -/
structure Topic where
  strandId : Nat
  numQuestions : Int
deriving DecidableEq

/-- Join query `LearningOutcome.query.join(SubStrand).filter(SubStrand.strand_id == strand_id)`:
the learning outcomes under the sub-strands of a strand. -/
def losForStrand (db : DB) (sid : Nat) : List (Nat × LeafKey) :=
  db.los.rows.filter (fun lo =>
    db.substrands.rows.any (fun ss => decide (ss.1 = lo.2.1) && decide (ss.2.1 = sid)))

/-- Python `sep.join(items)`. -/
def joinSep (sep : List Char) : List (List Char) → List Char
  | [] => []
  | [x] => x
  | x :: y :: rest => x ++ sep ++ joinSep sep (y :: rest)

/-- Leading literal chunk of one prompt section. -/
def secLit1 : String := "\n---\n**Section "

/-- Literal chunk between the section index and the strand name. -/
def secLit2 : String := ": "

/-- Literal chunk between the strand name and the question count. -/
def secLit3 : String := "**\nGenerate "

/-- Literal chunk between the question count and the outcome texts. -/
def secLit4 : String := " questions (mix of multiple_choice and short_answer) that assess the following learning outcomes:\n- "

/-- Trailing literal chunk of one prompt section. -/
def secLit5 : String := "\n---\n"

/-- One rendered section of the full-test prompt. -/
def sectionText (idx : Nat) (strandName : String) (numQ : Int)
    (loTexts : List Char) : List Char :=
  secLit1.data ++ (toString idx).data ++ secLit2.data ++ strandName.data ++
  secLit3.data ++ (toString numQ).data ++ secLit4.data ++ loTexts ++
  secLit5.data

/-- The `prompt_sections` accumulation loop over `enumerate(topics)`:
a topic whose strand id does not resolve is skipped, a topic whose
strand has no learning outcomes under its sub-strands is skipped, and
each surviving topic appends one section (the outcome descriptions are
joined with the literal separator `"\\n- "` of the source). -/
def sectionsAux (db : DB) : Nat → List Topic → List Char
  | _, [] => []
  | i, t :: ts =>
    match findRowById db.strands t.strandId with
    | none => sectionsAux db (i + 1) ts
    | some st =>
      if losForStrand db t.strandId = [] then sectionsAux db (i + 1) ts
      else
        sectionText (i + 1) st.2.2.2 t.numQuestions
          (joinSep ("\\n- ".data) ((losForStrand db t.strandId).map (fun lo => lo.2.2.data)))
          ++ sectionsAux db (i + 1) ts

/-- Leading literal chunk of the full-test prompt. -/
def ftLit1 : String := "\n            You are an expert exam creator for the Kenyan CBC curriculum.\n            Create a full, well-structured "

/-- Literal space between the grade and subject names. -/
def ftLit2 : String := " "

/-- Literal chunk between the subject name and the sections. -/
def ftLit3 : String := " test paper.\n            The test must have the following sections, with the specified number of questions for each.\n            "

/-- Trailing literal chunk of the full-test prompt. -/
def ftLit4 : String := "\n            GLOBAL INSTRUCTIONS:\n            1. For the entire test, ensure a good mix of question types (multiple_choice, short_answer) and cognitive levels based on Bloom\x27s Taxonomy (Remembering, Understanding, Applying, Analyzing).\n            2. Each generated question must be a JSON object with \x27type\x27, \x27question\x27, \x27answer\x27, and \x27taxonomy_level\x27. Multiple choice questions must also have an \x27options\x27 list.\n            FINAL OUTPUT FORMAT:\n            Respond ONLY with a single, valid JSON object. Do not include any text before or after the JSON.\n            The JSON object should have the structure: \x7b\"test_title\": \"...\", \"sections\": [\x7b\"section_title\": \"...\", \"questions\": [...]\x7d]\x7d\n            "

/-- The rendered full-test prompt f-string. -/
def fullTestPrompt (gradeName subjectName : String) (sections : List Char) :
    List Char :=
  ftLit1.data ++ gradeName.data ++ ftLit2.data ++ subjectName.data ++
  ftLit3.data ++ sections ++ ftLit4.data

/-- Outcome of the full-test endpoint up to the AI call: `callAI` means
the rendered prompt is handed to `ai_model.generate_content`. -/
inductive FullTestPhase where
  | badRequest (msg : String)
  | notFound (msg : String)
  | reject (msg : String)
  | callAI (p : List Char)
deriving DecidableEq

/-- Request phase of `generate_full_test_endpoint`: field validation,
subject and grade lookup, section accumulation, and the
`if not prompt_sections` guard that fails the request before any AI
call when no topic survived. -/
def generateFullTest (db : DB) (subjectId gradeId : Nat)
    (topics : List Topic) : FullTestPhase :=
  if topics = [] then
    .badRequest ("Missing or invalid required fields: subject_id, grade_id, topics")
  else
    match findRowById db.subjects subjectId, findRowById db.grades gradeId with
    | some subj, some gr =>
      if sectionsAux db 0 topics = [] then
        .reject ("No valid topics with learning outcomes found.")
      else .callAI (fullTestPrompt gr.2 subj.2 (sectionsAux db 0 topics))
    | _, _ => .notFound ("Invalid subject_id or grade_id")

/-! ## Response validation (`app.py` lines 285-300 and 361-364) -/

/-- Fence marker with JSON annotation, `"```json"`. -/
def fenceJson : List Char := "```json".data

/-- Bare fence marker, `"```"`. -/
def fenceBare : List Char := "```".data

/-- The cleaning chain of the source:
`response.text.strip().removeprefix("```json").removesuffix("```").strip()`. -/
def cleanResponse (raw : List Char) : List Char :=
  pyTrim (removeSuffixL fenceBare (removePrefixL fenceJson (pyTrim raw)))

/-- The stripping rule as the specification claim words it: after
trimming, a leading fence marker — whether annotated as JSON or bare —
is stripped together with the trailing fence, and the text is trimmed
again.  Stated from the claim wording, for comparison with
`cleanResponse`. -/
def claimClean (raw : List Char) : List Char :=
  let t := pyTrim raw
  let t1 := if fenceJson.isPrefixOf t then t.drop fenceJson.length
            else if fenceBare.isPrefixOf t then t.drop fenceBare.length
            else t
  pyTrim (removeSuffixL fenceBare t1)

/-- Minimal JSON value shape, enough to distinguish the list check of
the endpoint (`isinstance(gen_q, list)`). -/
inductive JVal where
  | arr (elems : List JVal)
  | obj
  | str (s : String)
  | num (n : Int)
  | boolean (b : Bool)
  | null

/-- Result of `json.loads` on the cleaned text: a decode error or a
parsed value.  The decoder itself is an external collaborator and is
passed in as a parameter. -/
inductive ParseOut where
  | err (msg : String)
  | val (v : JVal)

/-- Outcome of the response-handling half of the single-outcome
endpoint. -/
inductive SingleResult where
  | emptyError
  | jsonError (details : String) (offending : List Char)
  | genFailure (details : String)
  | success (questions : List JVal) (emptyWarning : Bool)

/-- Emptiness check used for the empty-list warning log. -/
def isEmptyList : List JVal → Bool
  | [] => true
  | _ => false

/-- Response-handling half of `generate_questions_endpoint`: clean the
raw AI text; an empty result is the distinct empty-response failure; a
`json.JSONDecodeError` is reported with the offending cleaned text; a
parsed non-list raises `ValueError`, landing in the outer handler as a
generic generation failure; a parsed list — empty or not — is returned
as the successful response, with a warning logged when empty. -/
def singleResponse (parse : List Char → ParseOut) (raw : List Char) :
    SingleResult :=
  let clean := cleanResponse raw
  if clean = [] then .emptyError
  else
    match parse clean with
    | .err m => .jsonError m clean
    | .val (JVal.arr qs) => .success qs (isEmptyList qs)
    | .val _ => .genFailure ("AI response is not a JSON list.")

/-! ## Registration and login (`app.register`, `app.login`) -/

/-- One row of the `users` table. -/
structure AuthUser where
  id : Nat
  email : String
  passwordHash : String
deriving DecidableEq

/-- The `users` table plus its id counter. -/
structure AuthDB where
  users : List AuthUser
  nextId : Nat
deriving DecidableEq

/-- Query `User.query.filter_by(email=...).first()`. -/
def findByEmail (db : AuthDB) (e : String) : Option AuthUser :=
  db.users.find? (fun u => decide (u.email = e))

/-- Outcome of `POST /api/register`. -/
inductive RegisterResult where
  | conflict
  | created (u : AuthUser)
deriving DecidableEq

/-- The register endpoint: normalize the email with
`email.strip().lower()`, refuse an existing address with 409, else
store the normalized email and the bcrypt hash of the password.  The
hash primitive is an external collaborator passed as a parameter. -/
def registerUser (hash : String → String) (db : AuthDB)
    (email password : String) : RegisterResult × AuthDB :=
  let norm := lowerS (stripS email)
  match findByEmail db norm with
  | some _ => (.conflict, db)
  | none =>
    let u : AuthUser := ⟨db.nextId, norm, hash password⟩
    (.created u, ⟨db.users ++ [u], db.nextId + 1⟩)

/-- Outcome of `POST /api/login`. -/
inductive LoginResult where
  | ok (u : AuthUser)
  | invalid
deriving DecidableEq

/-- The login endpoint: query by the identically normalized email and
check the password against the stored hash
(`if user and user.check_password(password)`). -/
def loginUser (hash : String → String) (db : AuthDB)
    (email password : String) : LoginResult :=
  match findByEmail db (lowerS (stripS email)) with
  | some u => if u.passwordHash = hash password then .ok u else .invalid
  | none => .invalid

/-- Bool test that two character lists agree up to letter case:
same length and pointwise equal after `Char.toLower`. -/
def caseVariantC : List Char → List Char → Bool
  | [], [] => true
  | c :: cs, d :: ds => decide (c.toLower = d.toLower) && caseVariantC cs ds
  | _, _ => false

/-! ## Concrete fixtures used by the witnesses -/

/-- An empty store, id counters at 1 as Postgres serials start. -/
def dbEmpty : DB := ⟨⟨[], 1⟩, ⟨[], 1⟩, ⟨[], 1⟩, ⟨[], 1⟩, ⟨[], 1⟩, ⟨[], 1⟩⟩

/-- The example CSV row of the specification. -/
def rowW : CsvRow :=
  ⟨"Math", "Grade4", "Numbers", "Addition", "LearningOutcome", "Add two digit numbers"⟩

/-- The same row with an unrecognized `ItemType`. -/
def rowBadType : CsvRow :=
  ⟨"Math", "Grade4", "Numbers", "Addition", "Outcome", "Add two digit numbers"⟩

/-- A row with a required field empty after trimming. -/
def rowBlank : CsvRow :=
  ⟨"Math", "   ", "Numbers", "Addition", "LearningOutcome", "Add two digit numbers"⟩

/-- A store holding one full hierarchy chain. -/
def dbW : DB :=
  ⟨⟨[(1, "Math")], 2⟩, ⟨[(1, "Grade4")], 2⟩, ⟨[(1, (1, 1, "Numbers"))], 2⟩,
   ⟨[(1, (1, "Addition"))], 2⟩, ⟨[(1, (1, "Add two digit numbers"))], 2⟩, ⟨[], 1⟩⟩

/-- The context resolved from `dbW` for learning outcome 1. -/
def ctxW : Ctx := ⟨"Math", "Grade4", "Numbers", "Addition", "Add two digit numbers"⟩

/-- Raw AI text wrapped in a bare (unannotated) code fence. -/
def bareFenceRaw : List Char := "```\n[]\n```".data

/-- Decoder stub returning an empty JSON list. -/
def parseStubArr : List Char → ParseOut := fun _ => .val (JVal.arr [])

/-- Decoder stub returning a JSON object. -/
def parseStubObj : List Char → ParseOut := fun _ => .val JVal.obj

/-- Decoder stub failing with a decode error. -/
def parseStubErr : List Char → ParseOut := fun _ => .err "Expecting value"

/-- Identity stand-in for the bcrypt hash in witnesses. -/
def hashId : String → String := fun s => s

/-! ## Helper lemmas about find-or-create -/

/-- After a `getOrCreate` call, the returned row is found by the same
natural-key query. -/
theorem goc_find_after {κ : Type} [DecidableEq κ] (t : Table κ) (k : κ) :
    (getOrCreate t k).table.rows.find? (fun r => decide (r.2 = k)) =
      some (getOrCreate t k).row := by
  unfold getOrCreate
  cases h : t.rows.find? (fun r => decide (r.2 = k)) with
  | some r => simp [h]
  | none => simp [h, List.find?_append]

/-- A `getOrCreate` call whose query already finds a row returns that
row with `created = false` and leaves the table unchanged. -/
theorem goc_of_found {κ : Type} [DecidableEq κ] (t : Table κ) (k : κ)
    (r : Nat × κ) (h : t.rows.find? (fun x => decide (x.2 = k)) = some r) :
    getOrCreate t k = ⟨r, false, t⟩ := by
  unfold getOrCreate
  simp [h]

/-- Running `getOrCreate` again on its own output table is the
identity: the row is returned with `created = false`. -/
theorem goc_self {κ : Type} [DecidableEq κ] (t : Table κ) (k : κ)
    (g : GocOut κ) (h : getOrCreate t k = g) :
    getOrCreate g.table k = ⟨g.row, false, g.table⟩ := by
  subst h
  exact goc_of_found _ _ _ (goc_find_after t k)

/-- The returned row of `getOrCreate` sits in the returned table and
carries the queried natural key. -/
theorem goc_mem {κ : Type} [DecidableEq κ] (t : Table κ) (k : κ) :
    (getOrCreate t k).row ∈ (getOrCreate t k).table.rows ∧
      (getOrCreate t k).row.2 = k := by
  refine ⟨List.mem_of_find?_eq_some (goc_find_after t k), ?_⟩
  have := List.find?_some (goc_find_after t k)
  exact of_decide_eq_true this

/-- The table grows by exactly the `created` flag. -/
theorem goc_length {κ : Type} [DecidableEq κ] (t : Table κ) (k : κ) :
    (getOrCreate t k).table.rows.length =
      t.rows.length + natOfBool (getOrCreate t k).created := by
  unfold getOrCreate
  cases h : t.rows.find? (fun r => decide (r.2 = k)) with
  | some r => simp [h, natOfBool]
  | none => simp [h, natOfBool]

/-! ## C2: the get-or-create contract -/

/-- C2: for every call of `get_or_create`: a row matching the natural
key is returned unchanged with `created = False`; an absent row is
inserted, committed and returned with `created = True`; and when the
insert loses a race and fails the uniqueness constraint, the
transaction is rolled back, the key re-queried, and the concurrent
row of that writer returned with `created = False` — exactly one row with the
key exists afterwards and no exception reaches the caller. -/
theorem C2_get_or_create_contract {κ : Type} [DecidableEq κ] :
    (∀ (t : Table κ) (k : κ) (r : Nat × κ) (race : Option Nat),
        t.rows.find? (fun x => decide (x.2 = k)) = some r →
        getOrCreateRace t k race = .ok r false t)
    ∧ (∀ (t : Table κ) (k : κ),
        t.rows.find? (fun x => decide (x.2 = k)) = none →
        getOrCreateRace t k none =
          .ok (t.nextId, k) true ⟨t.rows ++ [(t.nextId, k)], t.nextId + 1⟩)
    ∧ (∀ (t : Table κ) (k : κ) (rid : Nat),
        t.rows.find? (fun x => decide (x.2 = k)) = none →
        getOrCreateRace t k (some rid) =
          .ok (rid, k) false ⟨t.rows ++ [(rid, k)], t.nextId + 1⟩
        ∧ keyCount (⟨t.rows ++ [(rid, k)], t.nextId + 1⟩ : Table κ) k = 1) := by
  refine ⟨?_, ?_, ?_⟩
  · intro t k r race h
    simp [getOrCreateRace, h]
  · intro t k h
    simp [getOrCreateRace, h]
  · intro t k rid h
    have hall := List.find?_eq_none.mp h
    constructor
    · simp [getOrCreateRace, h, List.find?_append]
    · have hnil : t.rows.filter (fun r => decide (r.2 = k)) = [] :=
        List.filter_eq_nil_iff.mpr hall
      simp [keyCount, List.filter_append, hnil]

/-- Witness for C2: the race branch at a concrete table and key. -/
theorem C2_witness :
    getOrCreateRace (⟨[(1, "Math")], 2⟩ : Table String) ("Science") (some 7) =
      .ok (7, "Science") false ⟨[(1, "Math"), (7, "Science")], 3⟩
    ∧ keyCount (⟨[(1, "Math"), (7, "Science")], 3⟩ : Table String) ("Science") = 1 := by
  have h := (C2_get_or_create_contract (κ := String)).2.2
    ⟨[(1, "Math")], 2⟩ ("Science") 7 (by decide)
  simpa using h

/-- Projection form of `goc_self`, usable as a rewrite rule. -/
theorem goc_table_self {κ : Type} [DecidableEq κ] (t : Table κ) (k : κ) :
    getOrCreate (getOrCreate t k).table k =
      ⟨(getOrCreate t k).row, false, (getOrCreate t k).table⟩ :=
  goc_self t k _ rfl

/-- Processed count of a run: every row of the input is processed. -/
theorem runImport_length (db : DB) (rows : List (CsvRow × Bool)) :
    (runImport db rows).1 = rows.length := by
  induction rows generalizing db with
  | nil => simp [runImport]
  | cons hd tl ih =>
    obtain ⟨r, pf⟩ := hd
    simp [runImport, ih]

/-! ## C1: importing the same row twice is idempotent -/

/-- C1: after a first run of the importer row-step on a valid
LearningOutcome row has created each hierarchy level once, a second
run on the identical row leaves every table of the store unchanged,
reports zero created increments for Subject, Grade, Strand, SubStrand
and LearningOutcome, and no row error. -/
theorem C1_import_row_idempotent (db db1 : DB) (r : CsvRow) (c1 : Counts)
    (hne : rowHasEmptyField r = false)
    (hty : stripS r.itemType = "LearningOutcome")
    (h1 : importRow db r = (db1, c1, false))
    (_hc : c1 = ⟨1, 1, 1, 1, 1, 0⟩) :
    importRow db1 r = (db1, zeroCounts, false) := by
  simp only [importRow, hne, Bool.false_eq_true, if_false, hty, if_pos] at h1
  have hdb : db1 =
      ⟨(getOrCreate db.subjects (stripS r.subject)).table,
       (getOrCreate db.grades (stripS r.grade)).table,
       (getOrCreate db.strands
         ((getOrCreate db.subjects (stripS r.subject)).row.1,
          (getOrCreate db.grades (stripS r.grade)).row.1,
          stripS r.strand)).table,
       (getOrCreate db.substrands
         ((getOrCreate db.strands
            ((getOrCreate db.subjects (stripS r.subject)).row.1,
             (getOrCreate db.grades (stripS r.grade)).row.1,
             stripS r.strand)).row.1,
          stripS r.substrand)).table,
       (getOrCreate db.los
         ((getOrCreate db.substrands
            ((getOrCreate db.strands
               ((getOrCreate db.subjects (stripS r.subject)).row.1,
                (getOrCreate db.grades (stripS r.grade)).row.1,
                stripS r.strand)).row.1,
             stripS r.substrand)).row.1,
          stripS r.itemText)).table,
       db.kiqs⟩ := by
    have := congrArg Prod.fst h1
    simpa using this.symm
  subst hdb
  simp only [importRow, hne, Bool.false_eq_true, if_false, hty, if_pos]
  simp [goc_table_self, zeroCounts, natOfBool]

/-- Witness for C1 at the example row of the specification, from an empty
store. -/
theorem C1_witness :
    importRow (importRow dbEmpty rowW).1 rowW =
      ((importRow dbEmpty rowW).1, zeroCounts, false) :=
  C1_import_row_idempotent dbEmpty (importRow dbEmpty rowW).1 rowW
    ⟨1, 1, 1, 1, 1, 0⟩ (by decide) (by decide) (by decide) rfl

/-! ## C10: a bad ItemType row still commits the four upper levels -/

/-- C10: for a row whose six fields are non-empty after trimming but
whose ItemType is neither LearningOutcome nor KeyInquiryQuestion, the
row is counted as an error and no leaf is written, yet the Subject,
Grade, Strand and SubStrand resolved-or-created for that row remain in
the store, and the per-kind created counts equal the growth of the
corresponding tables. -/
theorem C10_bad_item_type_commits_upper_levels (db : DB) (r : CsvRow)
    (hne : rowHasEmptyField r = false)
    (hty1 : ¬ stripS r.itemType = "LearningOutcome")
    (hty2 : ¬ stripS r.itemType = "KeyInquiryQuestion") :
    (importRow db r).2.2 = true
    ∧ (importRow db r).1.los = db.los
    ∧ (importRow db r).1.kiqs = db.kiqs
    ∧ (importRow db r).2.1.lo = 0
    ∧ (importRow db r).2.1.kiq = 0
    ∧ (∃ x ∈ (importRow db r).1.subjects.rows, x.2 = stripS r.subject)
    ∧ (∃ x ∈ (importRow db r).1.grades.rows, x.2 = stripS r.grade)
    ∧ (∃ x ∈ (importRow db r).1.strands.rows, x.2.2.2 = stripS r.strand)
    ∧ (∃ x ∈ (importRow db r).1.substrands.rows, x.2.2 = stripS r.substrand)
    ∧ (importRow db r).2.1.subject =
        (importRow db r).1.subjects.rows.length - db.subjects.rows.length
    ∧ (importRow db r).2.1.grade =
        (importRow db r).1.grades.rows.length - db.grades.rows.length
    ∧ (importRow db r).2.1.strand =
        (importRow db r).1.strands.rows.length - db.strands.rows.length
    ∧ (importRow db r).2.1.substrand =
        (importRow db r).1.substrands.rows.length - db.substrands.rows.length := by
  simp only [importRow, hne, Bool.false_eq_true, if_false, if_neg hty1, if_neg hty2]
  refine ⟨by trivial, by trivial, by trivial, by trivial, by trivial,
    ?_, ?_, ?_, ?_, ?_, ?_, ?_, ?_⟩
  · exact ⟨_, (goc_mem db.subjects (stripS r.subject)).1,
      (goc_mem db.subjects (stripS r.subject)).2⟩
  · exact ⟨_, (goc_mem db.grades (stripS r.grade)).1,
      (goc_mem db.grades (stripS r.grade)).2⟩
  · refine ⟨_, (goc_mem db.strands _).1, ?_⟩
    rw [(goc_mem db.strands _).2]
  · refine ⟨_, (goc_mem db.substrands _).1, ?_⟩
    rw [(goc_mem db.substrands _).2]
  · rw [goc_length db.subjects (stripS r.subject)]
    omega
  · rw [goc_length db.grades (stripS r.grade)]
    omega
  · rw [goc_length db.strands _]
    omega
  · rw [goc_length db.substrands _]
    omega

/-- Witness for C10 at a concrete row with ItemType `Outcome`. -/
theorem C10_witness :
    (importRow dbEmpty rowBadType).2.2 = true
    ∧ (importRow dbEmpty rowBadType).1.los = dbEmpty.los
    ∧ (importRow dbEmpty rowBadType).1.kiqs = dbEmpty.kiqs
    ∧ (importRow dbEmpty rowBadType).2.1.lo = 0
    ∧ (importRow dbEmpty rowBadType).2.1.kiq = 0
    ∧ (∃ x ∈ (importRow dbEmpty rowBadType).1.subjects.rows,
        x.2 = stripS rowBadType.subject)
    ∧ (∃ x ∈ (importRow dbEmpty rowBadType).1.grades.rows,
        x.2 = stripS rowBadType.grade)
    ∧ (∃ x ∈ (importRow dbEmpty rowBadType).1.strands.rows,
        x.2.2.2 = stripS rowBadType.strand)
    ∧ (∃ x ∈ (importRow dbEmpty rowBadType).1.substrands.rows,
        x.2.2 = stripS rowBadType.substrand)
    ∧ (importRow dbEmpty rowBadType).2.1.subject =
        (importRow dbEmpty rowBadType).1.subjects.rows.length -
          dbEmpty.subjects.rows.length
    ∧ (importRow dbEmpty rowBadType).2.1.grade =
        (importRow dbEmpty rowBadType).1.grades.rows.length -
          dbEmpty.grades.rows.length
    ∧ (importRow dbEmpty rowBadType).2.1.strand =
        (importRow dbEmpty rowBadType).1.strands.rows.length -
          dbEmpty.strands.rows.length
    ∧ (importRow dbEmpty rowBadType).2.1.substrand =
        (importRow dbEmpty rowBadType).1.substrands.rows.length -
          dbEmpty.substrands.rows.length :=
  C10_bad_item_type_commits_upper_levels dbEmpty rowBadType
    (by decide) (by decide) (by decide)

/-! ## C8: partial-failure semantics of the importer -/

/-- C8: the importer has partial-failure semantics.  A missing input
file aborts the whole run before any row, leaving the store untouched.
With the file present, every row of the input is processed and the run
completes; a row with an empty required field after trimming is counted
as an error and changes nothing; a row with an unrecognized ItemType is
counted as an error; and a row on which persistence fails is rolled
back, counted as an error, and the run continues on the remaining rows
unchanged. -/
theorem C8_importer_partial_failure (db : DB) (rows : List (CsvRow × Bool)) :
    (∀ hasCols : Bool, importCurriculum false hasCols rows db = (.fileNotFound, db))
    ∧ (∃ c e, (importCurriculum true true rows db).1 = .completed rows.length c e)
    ∧ (∀ (db2 : DB) (r : CsvRow), rowHasEmptyField r = true →
        importRow db2 r = (db2, zeroCounts, true))
    ∧ (∀ (db2 : DB) (r : CsvRow), rowHasEmptyField r = false →
        ¬ stripS r.itemType = "LearningOutcome" →
        ¬ stripS r.itemType = "KeyInquiryQuestion" →
        (importRow db2 r).2.2 = true)
    ∧ (∀ (db2 : DB) (rest : List (CsvRow × Bool)) (r : CsvRow),
        runImport db2 ((r, true) :: rest) =
          ((runImport db2 rest).1 + 1, (runImport db2 rest).2.1,
           (runImport db2 rest).2.2.1 + 1, (runImport db2 rest).2.2.2)) := by
  refine ⟨?_, ?_, ?_, ?_, ?_⟩
  · intro hasCols
    simp [importCurriculum]
  · refine ⟨(runImport db rows).2.1, (runImport db rows).2.2.1, ?_⟩
    simp [importCurriculum, runImport_length]
  · intro db2 r h
    simp [importRow, h]
  · intro db2 r hne hty1 hty2
    simp only [importRow, hne, Bool.false_eq_true, if_false, if_neg hty1, if_neg hty2]
  · intro db2 rest r
    simp [runImport, addCounts, zeroCounts, natOfBool]

/-- Witness for C8: one blank row, one bad-type row and one
persistence failure on a three-row input. -/
theorem C8_witness :
    (importCurriculum false true [(rowW, false)] dbEmpty = (.fileNotFound, dbEmpty))
    ∧ (∃ c e, (importCurriculum true true
        [(rowBlank, false), (rowBadType, false), (rowW, true)] dbEmpty).1 =
        .completed 3 c e)
    ∧ importRow dbEmpty rowBlank = (dbEmpty, zeroCounts, true)
    ∧ (importRow dbEmpty rowBadType).2.2 = true := by
  have h := C8_importer_partial_failure dbEmpty
    [(rowBlank, false), (rowBadType, false), (rowW, true)]
  refine ⟨?_, h.2.1, ?_, ?_⟩
  · exact (C8_importer_partial_failure dbEmpty [(rowW, false)]).1 true
  · exact h.2.2.1 dbEmpty rowBlank (by decide)
  · exact h.2.2.2.1 dbEmpty rowBadType (by decide) (by decide) (by decide)

/-! ## Helper lemmas about case variants and containment -/

/-- Case-variant character lists have equal `toLower` images. -/
theorem caseVariant_toLower (a b : List Char) (h : caseVariantC a b = true) :
    a.map Char.toLower = b.map Char.toLower := by
  induction a generalizing b with
  | nil =>
    cases b with
    | nil => rfl
    | cons d ds => simp [caseVariantC] at h
  | cons c cs ih =>
    cases b with
    | nil => simp [caseVariantC] at h
    | cons d ds =>
      simp only [caseVariantC, Bool.and_eq_true, decide_eq_true_eq] at h
      simp [h.1, ih ds h.2]

/-- A list is an infix of anything followed by itself. -/
theorem infix_endwith (l x : List Char) : x <:+: l ++ x := ⟨l, [], by simp⟩

/-- Appending on the right preserves the infix relation. -/
theorem infix_extend (r : List Char) {x m : List Char} (h : x <:+: m) :
    x <:+: m ++ r := by
  obtain ⟨s, t, rfl⟩ := h
  exact ⟨s, t ++ r, by simp⟩

/-- Every interpolated field of the single-outcome prompt occurs
verbatim in the rendered document. -/
theorem singlePrompt_contains (numQ : Int) (m : String) (c : Ctx) :
    (toString numQ).data <:+: singlePrompt numQ m c
    ∧ m.data <:+: singlePrompt numQ m c
    ∧ c.subject.data <:+: singlePrompt numQ m c
    ∧ c.grade.data <:+: singlePrompt numQ m c
    ∧ c.strand.data <:+: singlePrompt numQ m c
    ∧ c.substrand.data <:+: singlePrompt numQ m c
    ∧ c.outcome.data <:+: singlePrompt numQ m c := by
  unfold singlePrompt
  refine ⟨?_, ?_, ?_, ?_, ?_, ?_, ?_⟩
  · exact infix_extend _ (infix_extend _ (infix_extend _ (infix_extend _ (infix_extend _ (infix_extend _ (infix_extend _ (infix_extend _ (infix_extend _ (infix_extend _ (infix_extend _ (infix_extend _ (infix_extend _ (infix_extend _ (infix_extend _ (infix_endwith _ _)))))))))))))))
  · exact infix_extend _ (infix_extend _ (infix_extend _ (infix_extend _ (infix_extend _ (infix_extend _ (infix_extend _ (infix_extend _ (infix_extend _ (infix_extend _ (infix_extend _ (infix_extend _ (infix_extend _ (infix_endwith _ _)))))))))))))
  · exact infix_extend _ (infix_extend _ (infix_extend _ (infix_extend _ (infix_extend _ (infix_extend _ (infix_extend _ (infix_extend _ (infix_extend _ (infix_extend _ (infix_extend _ (infix_endwith _ _)))))))))))
  · exact infix_extend _ (infix_endwith _ _)
  · exact infix_extend _ (infix_extend _ (infix_extend _ (infix_extend _ (infix_extend _ (infix_extend _ (infix_extend _ (infix_endwith _ _)))))))
  · exact infix_extend _ (infix_extend _ (infix_extend _ (infix_extend _ (infix_extend _ (infix_endwith _ _)))))
  · exact infix_extend _ (infix_extend _ (infix_extend _ (infix_endwith _ _)))

/-! ## C9: identical email normalization at registration and login -/

/-- C9: registration and login apply the identical email
normalization (`email.strip().lower()`), so after a successful
registration any login attempt whose email agrees with the registered
one up to letter case and leading or trailing whitespace resolves to
the registered account and succeeds with the correct password. -/
theorem C9_login_normalized_email (hash : String → String) (db : AuthDB)
    (e p e2 : String) (u : AuthUser)
    (hreg : (registerUser hash db e p).1 = .created u)
    (hvar : caseVariantC (stripS e).data (stripS e2).data = true) :
    loginUser hash (registerUser hash db e p).2 e2 p = .ok u := by
  have hnorm : lowerS (stripS e2) = lowerS (stripS e) :=
    congrArg String.mk (caseVariant_toLower _ _ hvar).symm
  cases hfind : findByEmail db (lowerS (stripS e)) with
  | some v =>
    exfalso
    rw [show (registerUser hash db e p).1 = RegisterResult.conflict from by
      simp [registerUser, hfind]] at hreg
    exact RegisterResult.noConfusion hreg
  | none =>
    have hpair : registerUser hash db e p =
        (.created ⟨db.nextId, lowerS (stripS e), hash p⟩,
         ⟨db.users ++ [⟨db.nextId, lowerS (stripS e), hash p⟩], db.nextId + 1⟩) := by
      simp [registerUser, hfind]
    rw [hpair] at hreg
    simp only [RegisterResult.created.injEq] at hreg
    subst hreg
    rw [hpair]
    unfold findByEmail at hfind
    simp [loginUser, findByEmail, hnorm, List.find?_append, hfind]

/-- Witness for C9: an email stored from a padded mixed-case form is
found by its lower-case login form. -/
theorem C9_witness :
    loginUser hashId
      (registerUser hashId ⟨[], 1⟩ ("  Alice@Example.Com ") ("pw")).2
      ("alice@example.com") ("pw") = .ok ⟨1, "alice@example.com", "pw"⟩ :=
  C9_login_normalized_email hashId ⟨[], 1⟩ ("  Alice@Example.Com ") ("pw")
    ("alice@example.com") ⟨1, "alice@example.com", "pw"⟩ (by decide) (by decide)

/-! ## C3: the single-outcome prompt builder -/

/-- C3: for every request with count in 1..20 and a kind the
case-folded map accepts (`mcq` aliased to `multiple_choice`), the
endpoint renders the prompt document, which contains the literal
count, the mapped kind, and all five resolved context fields verbatim;
for count 0, count 21, or kind `essay`, the request is rejected with a
validation error. -/
theorem C3_prompt_content_and_validation :
    (∀ (db : DB) (loId : Nat) (numQ : Int) (qType m : String)
        (lo : Nat × LeafKey) (c : Ctx),
        0 < numQ → numQ ≤ 20 →
        qTypeMap (lowerS qType) = some m →
        findRowById db.los loId = some lo →
        contextFor db lo = some c →
        generatePhase1 db loId numQ qType = (.prompt (singlePrompt numQ m c), true)
        ∧ (toString numQ).data <:+: singlePrompt numQ m c
        ∧ m.data <:+: singlePrompt numQ m c
        ∧ c.subject.data <:+: singlePrompt numQ m c
        ∧ c.grade.data <:+: singlePrompt numQ m c
        ∧ c.strand.data <:+: singlePrompt numQ m c
        ∧ c.substrand.data <:+: singlePrompt numQ m c
        ∧ c.outcome.data <:+: singlePrompt numQ m c)
    ∧ (∀ (db : DB) (loId : Nat) (numQ : Int) (qType : String),
        numQ = 0 ∨ numQ = 21 ∨ lowerS qType = "essay" →
        ∃ msg, generatePhase1 db loId numQ qType = (.badRequest msg, false)) := by
  constructor
  · intro db loId numQ qType m lo c h1 h2 hmap hlo hctx
    refine ⟨?_, singlePrompt_contains numQ m c⟩
    have hcond : 0 < numQ ∧ numQ ≤ 20 := ⟨h1, h2⟩
    simp [generatePhase1, hcond, hmap, hlo, hctx]
  · intro db loId numQ qType h
    unfold generatePhase1
    rcases h with h | h | h
    · subst h
      rw [if_neg (by omega)]
      exact ⟨_, rfl⟩
    · subst h
      rw [if_neg (by omega)]
      exact ⟨_, rfl⟩
    · by_cases hr : 0 < numQ ∧ numQ ≤ 20
      · rw [if_pos hr, h]
        exact ⟨"Unsupported question_type.", by simp [qTypeMap]⟩
      · rw [if_neg hr]
        exact ⟨_, rfl⟩

/-- Witness for C3: a `MCQ` request for three questions against the
one-chain store. -/
theorem C3_witness :
    generatePhase1 dbW 1 3 ("MCQ") =
      (.prompt (singlePrompt 3 ("multiple_choice") ctxW), true)
    ∧ (toString (3 : Int)).data <:+: singlePrompt 3 ("multiple_choice") ctxW
    ∧ ("multiple_choice").data <:+: singlePrompt 3 ("multiple_choice") ctxW
    ∧ ctxW.subject.data <:+: singlePrompt 3 ("multiple_choice") ctxW
    ∧ ctxW.grade.data <:+: singlePrompt 3 ("multiple_choice") ctxW
    ∧ ctxW.strand.data <:+: singlePrompt 3 ("multiple_choice") ctxW
    ∧ ctxW.substrand.data <:+: singlePrompt 3 ("multiple_choice") ctxW
    ∧ ctxW.outcome.data <:+: singlePrompt 3 ("multiple_choice") ctxW :=
  C3_prompt_content_and_validation.1 dbW 1 3 ("MCQ") ("multiple_choice")
    (1, (1, "Add two digit numbers")) ctxW
    (by decide) (by decide) (by decide) (by decide) (by decide)

/-! ## C6: validation happens before any store read -/

/-- C6: a single-outcome request whose kind is not in the allowed set
after case folding, or whose count is outside 1..20, is rejected with
a validation error and the store-read flag stays false: no
learning-outcome or hierarchy lookup happens on the rejection path. -/
theorem C6_reject_before_store_read (db : DB) (loId : Nat) (numQ : Int)
    (qType : String)
    (h : qTypeMap (lowerS qType) = none ∨ ¬(0 < numQ ∧ numQ ≤ 20)) :
    ∃ msg, generatePhase1 db loId numQ qType = (.badRequest msg, false) := by
  unfold generatePhase1
  rcases h with h | h
  · by_cases hr : 0 < numQ ∧ numQ ≤ 20
    · rw [if_pos hr, h]
      exact ⟨_, rfl⟩
    · rw [if_neg hr]
      exact ⟨_, rfl⟩
  · rw [if_neg h]
    exact ⟨_, rfl⟩

/-- Witness for C6: kind `essay` is rejected without a store read. -/
theorem C6_witness :
    ∃ msg, generatePhase1 dbW 1 5 ("essay") = (.badRequest msg, false) :=
  C6_reject_before_store_read dbW 1 5 ("essay") (Or.inl (by decide))

/-! ## C5: the full-test endpoint with no resolvable topic -/

/-- When every topic is skipped — its strand id unresolvable or its
strand without learning outcomes — the accumulated sections are empty,
whatever the running index. -/
theorem sectionsAux_nil_of_skip (db : DB) (topics : List Topic)
    (h : ∀ t ∈ topics,
        findRowById db.strands t.strandId = none ∨ losForStrand db t.strandId = []) :
    ∀ i, sectionsAux db i topics = [] := by
  induction topics with
  | nil => intro i; rfl
  | cons hd tl ih =>
    intro i
    have hh := h hd (by simp)
    have htl := ih fun t ht => h t (by simp [ht])
    rcases hh with hh | hh
    · simp [sectionsAux, hh, htl]
    · cases hf : findRowById db.strands hd.strandId with
      | none => simp [sectionsAux, hf, htl]
      | some st => simp [sectionsAux, hf, hh, htl]

/-- C5: when the strand of every topic is unresolvable or has no learning
outcomes under its sub-strands, the full-test request fails with the
no-valid-topics error before any AI call; and the AI is never invoked
with empty prompt sections. -/
theorem C5_no_valid_topics :
    (∀ (db : DB) (sid gid : Nat) (topics : List Topic) (subj gr : Nat × String),
        topics ≠ [] →
        findRowById db.subjects sid = some subj →
        findRowById db.grades gid = some gr →
        (∀ t ∈ topics,
          findRowById db.strands t.strandId = none ∨ losForStrand db t.strandId = []) →
        generateFullTest db sid gid topics =
          .reject ("No valid topics with learning outcomes found."))
    ∧ (∀ (db : DB) (sid gid : Nat) (topics : List Topic) (p : List Char),
        generateFullTest db sid gid topics = .callAI p →
        sectionsAux db 0 topics ≠ []) := by
  constructor
  · intro db sid gid topics subj gr hne hsub hgr hskip
    have hsec := sectionsAux_nil_of_skip db topics hskip 0
    simp [generateFullTest, hne, hsub, hgr, hsec]
  · intro db sid gid topics p h
    by_cases hne : topics = []
    · simp [generateFullTest, hne] at h
    · cases hsub : findRowById db.subjects sid with
      | none => simp [generateFullTest, hne, hsub] at h
      | some subj =>
        cases hgr : findRowById db.grades gid with
        | none => simp [generateFullTest, hne, hsub, hgr] at h
        | some gr =>
          by_cases hs : sectionsAux db 0 topics = []
          · simp [generateFullTest, hne, hsub, hgr, hs] at h
          · exact hs

/-- Witness for C5: a topic list naming only a nonexistent strand. -/
theorem C5_witness :
    generateFullTest dbW 1 1 [⟨99, 3⟩] =
      .reject ("No valid topics with learning outcomes found.") :=
  C5_no_valid_topics.1 dbW 1 1 [⟨99, 3⟩] (1, "Math") (1, "Grade4")
    (by decide) (by decide) (by decide)
    (by intro t ht; simp at ht; subst ht; exact Or.inl (by decide))

/-! ## C7: the parsed value must be a list; empty lists succeed -/

/-- C7: in single-outcome mode, when the AI response parses, a
non-list value fails the request through the generic generation
failure, while a list — including the empty list — is returned as the
successful response, with only a warning flagged when empty. -/
theorem C7_parsed_value_list_contract (parse : List Char → ParseOut)
    (raw : List Char) (v : JVal)
    (hne : cleanResponse raw ≠ [])
    (hp : parse (cleanResponse raw) = .val v) :
    (∀ qs : List JVal, v = .arr qs →
        singleResponse parse raw = .success qs (isEmptyList qs))
    ∧ ((∀ qs : List JVal, v ≠ .arr qs) →
        singleResponse parse raw = .genFailure ("AI response is not a JSON list.")) := by
  unfold singleResponse
  rw [if_neg hne, hp]
  constructor
  · rintro qs rfl
    rfl
  · intro hq
    cases v with
    | arr qs => exact absurd rfl (hq qs)
    | obj => rfl
    | str s => rfl
    | num n => rfl
    | boolean b => rfl
    | null => rfl

/-- Witness for C7: an empty parsed list succeeds with a warning; a
parsed object fails the request. -/
theorem C7_witness :
    singleResponse parseStubArr ("[]".data) = .success [] true
    ∧ singleResponse parseStubObj ("[]".data) =
        .genFailure ("AI response is not a JSON list.") := by
  constructor
  · exact (C7_parsed_value_list_contract parseStubArr ("[]".data)
      (JVal.arr []) (by decide) rfl).1 [] rfl
  · exact (C7_parsed_value_list_contract parseStubObj ("[]".data)
      JVal.obj (by decide) rfl).2 (fun qs h => JVal.noConfusion h)

/-! ## C4: the response-cleaning step (corrected) -/

/-- C4 counterexample: on raw text wrapped in a bare (unannotated)
fence the code does not strip the leading fence — the claimed
stripping (`claimClean`, stated from the claim wording) yields the
fenced body, the cleaning chain of the code keeps the leading fence, and
the two disagree. -/
theorem C4_counterexample :
    fenceBare.isPrefixOf (pyTrim bareFenceRaw) = true
    ∧ claimClean bareFenceRaw = ("[]".data)
    ∧ cleanResponse bareFenceRaw = ("```\n[]".data)
    ∧ cleanResponse bareFenceRaw ≠ claimClean bareFenceRaw := by
  decide

/-- C4 (amended): the validator trims, strips a leading fence only
when annotated as ` ```json `, strips a trailing ` ``` ` when present,
and trims again; an empty result is the distinct empty-response
failure, never a parse error; only a non-empty result is parsed, and a
decode failure is reported with the offending cleaned text retained. -/
theorem C4_response_cleaning_amended :
    (∀ raw body : List Char,
        pyTrim raw = fenceJson ++ body ++ fenceBare →
        cleanResponse raw = pyTrim body)
    ∧ (∀ (parse : List Char → ParseOut) (raw : List Char),
        cleanResponse raw = [] → singleResponse parse raw = .emptyError)
    ∧ (∀ (parse : List Char → ParseOut) (raw : List Char) (msg : String),
        cleanResponse raw ≠ [] →
        parse (cleanResponse raw) = .err msg →
        singleResponse parse raw = .jsonError msg (cleanResponse raw)) := by
  refine ⟨?_, ?_, ?_⟩
  · intro raw body h
    simp [cleanResponse, h, removePrefixL, removeSuffixL,
      List.isPrefixOf_iff_prefix, List.isSuffixOf_iff_suffix,
      List.prefix_append, List.drop_left, List.length_append,
      Nat.add_sub_cancel, List.take_left]
  · intro parse raw h
    unfold singleResponse
    rw [if_pos h]
  · intro parse raw msg hne hp
    unfold singleResponse
    rw [if_neg hne, hp]

/-- Witness for C4 (amended): a JSON-annotated fence is stripped; an
empty raw text reports the distinct empty failure; a decode failure
retains the offending text. -/
theorem C4_witness :
    cleanResponse ("```json\n[1]\n```".data) = ("[1]".data)
    ∧ singleResponse parseStubArr [] = .emptyError
    ∧ singleResponse parseStubErr ("x".data) =
        .jsonError "Expecting value" ("x".data) := by
  refine ⟨?_, ?_, ?_⟩
  · have h := C4_response_cleaning_amended.1 ("```json\n[1]\n```".data)
      ("\n[1]\n".data) (by decide)
    rw [h]
    decide
  · exact C4_response_cleaning_amended.2.1 parseStubArr [] (by decide)
  · exact C4_response_cleaning_amended.2.2 parseStubErr ("x".data)
      "Expecting value" (by decide) rfl

end CBC
